import Mathlib

/-!
Verification development for the Financial-Times/content-exporter service.

The definitions below are a shallow embedding of the Go source:

* `queue/mapper.go` — `MessageMapper.mapNotification` and its helpers
  (`payload.getDateOrDefault`, `event.toNotification`, the UUID regexp),
* `content/export.go` — `Exporter.Export` / `Exporter.Delete`,
* `queue/notification.go` — `NotificationHandler.handleNotification`,
* `export` package (`healthcheck.go` companion doc) — `Job`, `Job.Copy`,
  `FullExporter.GetJob`, `FullExporter.GetRunningJobs`, `Job.RunExport`,
* `web/resources.go` — `RequestHandler.Export`, `RequestHandler.startExport`,
  `getCandidateUUIDs`,
* `queue` listener (`Listener.Start`, `Listener.handleNotifications`) — as a
  small-step interleaving system.

External collaborators (Mongo driver, Kafka consumer, HTTP clients, the JSON
decoder) are modelled as oracles/abstract decode results, exactly at the
interface the Go code consumes them.
-/

namespace ContentExporter

/-- `export.State` — job lifecycle states `Starting/Running/Finished`
(export package, constants `STARTING`, `RUNNING`, `FINISHED`). -/
inductive State where
  | STARTING
  | RUNNING
  | FINISHED
deriving DecidableEq, Repr

/-- `content.DefaultDate` (`content/export.go`). -/
def DefaultDate : String := "0000-00-00"

/-- `content.Stub` as used by the current mapper (`queue/mapper.go`,
`MessageMapper` version): fields `UUID, Date, ContentType string`,
`CanBeDistributed string`, `Publication []string`.  A Go nil slice is
`none`; a present (possibly empty) slice is `some l`. -/
structure Stub where
  UUID : String
  Date : String
  ContentType : String
  CanBeDistributed : String
  Publication : Option (List String)
deriving DecidableEq, Repr

/-- `queue.EventType` is a string type in Go (`type EventType string`), so
values other than `UPDATE`/`DELETE` are representable. -/
abbrev EventType := String

/-- `queue.UPDATE`. -/
def UPDATE : EventType := "UPDATE"

/-- `queue.DELETE`. -/
def DELETE : EventType := "DELETE"

/-- `queue.Notification` (`queue/notification.go`).  The embedded
`*export.Terminator` is runtime plumbing (a quit channel); its effect is
modelled where needed by the `quitBeforeDelay` oracle and by the listener
step system, not stored here. -/
structure Notification where
  stub : Stub
  evType : EventType
  tid : String
deriving DecidableEq, Repr

/-- The recognized fields of the decoded Kafka payload
(`queue/mapper.go`, `type payload struct`).  Absent JSON fields decode to
Go zero values: `false`, `""`, and nil slice (`none`) respectively;
`"publication": []` decodes to a present empty slice (`some []`). -/
structure Payload where
  deleted : Bool
  canBeDistributed : String
  typ : String
  publication : Option (List String)
  firstPublishedDate : String
  publishedDate : String
deriving DecidableEq, Repr

/-- `queue.event` (`queue/mapper.go`): `{ ContentURI string; Payload payload }`. -/
structure Event where
  contentURI : String
  payload : Payload
deriving DecidableEq, Repr

/-- Result of `json.Unmarshal` on the message body: either a decode error
(with the decoder's error text) or a decoded `event`. -/
inductive MessageBody where
  | malformed (err : String)
  | wellFormed (e : Event)
deriving DecidableEq, Repr

/-- `kafka.FTMessage` at the interface the mapper consumes: the
`X-Request-Id` header (a missing header reads as `""` from the Go map) and
the body's decode result. -/
structure FTMessage where
  requestID : String
  body : MessageBody
deriving DecidableEq, Repr

/-- `strings.HasPrefix` over character lists (first argument: the string,
second: the candidate head). -/
def listStartsWith : List Char → List Char → Bool
  | _, [] => true
  | [], _ :: _ => false
  | c :: cs, p :: ps => c == p && listStartsWith cs ps

/-- `strings.HasPrefix(s, pre)`. -/
def strStartsWith (s pre : String) : Bool :=
  listStartsWith s.toList pre.toList

/-- `strings.Split(s, "T")[0]`: the prefix of `s` before the first `'T'`. -/
def splitBeforeT (s : String) : String :=
  String.mk (s.toList.takeWhile (fun c => c != 'T'))

/-- `payload.getDateOrDefault` (`queue/mapper.go`). -/
def Payload.getDateOrDefault (p : Payload) : String :=
  if p.firstPublishedDate ≠ "" ∧ splitBeforeT p.firstPublishedDate ≠ "" then
    splitBeforeT p.firstPublishedDate
  else if p.publishedDate ≠ "" ∧ splitBeforeT p.publishedDate ≠ "" then
    splitBeforeT p.publishedDate
  else
    DefaultDate

/-- A character of the class `[a-fA-F0-9]` from `uuidRegexp`. -/
def isHexDigit (c : Char) : Bool :=
  c.isDigit || decide ('a' ≤ c ∧ c ≤ 'f') || decide ('A' ≤ c ∧ c ≤ 'F')

/-- Match exactly `n` hex digits at the head of `cs`, returning the matched
run and the rest. -/
def matchHexRun : Nat → List Char → Option (List Char × List Char)
  | 0, cs => some ([], cs)
  | _ + 1, [] => none
  | n + 1, c :: cs =>
    if isHexDigit c then
      match matchHexRun n cs with
      | some (m, rest) => some (c :: m, rest)
      | none => none
    else
      none

/-- Match a literal `'-'` at the head of `cs`. -/
def matchDash : List Char → Option (List Char)
  | '-' :: cs => some cs
  | _ => none

/-- Match the fixed-length pattern
`[a-fA-F0-9]{8}-[a-fA-F0-9]{4}-[a-fA-F0-9]{4}-[a-fA-F0-9]{4}-[a-fA-F0-9]{12}`
(`uuidRegexp` in `queue/mapper.go`) at the head of `cs`, returning the
matched characters. -/
def matchUUIDAt (cs : List Char) : Option (List Char) := do
  let (g1, r) ← matchHexRun 8 cs
  let r ← matchDash r
  let (g2, r) ← matchHexRun 4 r
  let r ← matchDash r
  let (g3, r) ← matchHexRun 4 r
  let r ← matchDash r
  let (g4, r) ← matchHexRun 4 r
  let r ← matchDash r
  let (g5, _) ← matchHexRun 12 r
  return g1 ++ '-' :: g2 ++ '-' :: g3 ++ '-' :: g4 ++ '-' :: g5

/-- Leftmost match of the UUID pattern in a character list (the pattern is
fixed-length, so `regexp.FindString` returns the match at the leftmost
position where the whole pattern fits). -/
def findUUIDChars : List Char → Option (List Char)
  | [] => none
  | c :: cs =>
    match matchUUIDAt (c :: cs) with
    | some m => some m
    | none => findUUIDChars cs

/-- `uuidRegexp.FindString(s)`: leftmost UUID substring, or `""` when there
is no match. -/
def findUUID (s : String) : String :=
  match findUUIDChars s.toList with
  | some m => String.mk m
  | none => ""

/-- `queue.canBeDistributedYes`. -/
def canBeDistributedYes : String := "yes"

/-- `event.toNotification` (`queue/mapper.go`): extract the UUID from the
content URI (error when absent), determine the event type from
`payload.Deleted`, and build the notification stub. -/
def Event.toNotification (e : Event) (tid : String) : Except String Notification :=
  let uuid := findUUID e.contentURI
  if uuid = "" then
    .error "contentURI does not contain a UUID"
  else
    .ok
      { stub :=
          { UUID := uuid
            Date := e.payload.getDateOrDefault
            CanBeDistributed := e.payload.canBeDistributed
            ContentType := e.payload.typ
            Publication := e.payload.publication }
        evType := if e.payload.deleted then DELETE else UPDATE
        tid := tid }

/-- The mapper's error taxonomy: `filter` is `*filterError` (reason as in the
source; `Error()` renders it as `"content is not exportable: " ++ reason`),
`mapping` is any other (wrapped) error. -/
inductive MapError where
  | filter (reason : String)
  | mapping (text : String)
deriving DecidableEq, Repr

/-- `queue.MessageMapper` (`queue/mapper.go`).  The compiled origin
allowlist regexp is kept as its matching semantics
(`originAllowlistRegex.MatchString`); the two `map[string]bool` allowlists
built by `NewMessageMapper` are kept as the lists they are built from
(membership in the map is membership in the list). -/
structure MessageMapper where
  originAllowed : String → Bool
  allowedContentTypes : List String
  allowedPublishUUIDs : List String

/-- `NewMessageMapper`. -/
def NewMessageMapper (originAllowed : String → Bool)
    (allowedContentTypes allowedPublishUUIDs : List String) : MessageMapper :=
  { originAllowed := originAllowed
    allowedContentTypes := allowedContentTypes
    allowedPublishUUIDs := allowedPublishUUIDs }

/-- `MessageMapper.mapNotification` (`queue/mapper.go`, lines 240-282),
rule for rule in source order: synthetic tid, JSON decode, origin
allowlist, notification building (UUID extraction + event type), content
type allowlist, publication allowlist, distributability. -/
def MessageMapper.mapNotification (m : MessageMapper) (msg : FTMessage) :
    Except MapError Notification :=
  let tid := msg.requestID
  if strStartsWith tid "SYNTH" then
    .error (.filter "synthetic publication")
  else
    match msg.body with
    | .malformed err => .error (.mapping ("error unmarshaling event: " ++ err))
    | .wellFormed pubEvent =>
      if ¬ m.originAllowed pubEvent.contentURI then
        .error (.filter ("uri " ++ pubEvent.contentURI ++ " not allowed"))
      else
        match pubEvent.toNotification tid with
        | .error e => .error (.mapping ("error building notification: " ++ e))
        | .ok n =>
          if ¬ m.allowedContentTypes.contains n.stub.ContentType then
            .error (.filter ("type " ++ n.stub.ContentType ++ " not allowed"))
          else
            match n.stub.Publication with
            | some pubs =>
              if pubs.any (fun v => m.allowedPublishUUIDs.contains v) then
                if n.stub.CanBeDistributed ≠ "" ∧
                    n.stub.CanBeDistributed ≠ canBeDistributedYes then
                  .error (.filter "cannot be distributed")
                else
                  .ok n
              else
                .error (.filter "Unsupported publication")
            | none =>
              if n.stub.CanBeDistributed ≠ "" ∧
                  n.stub.CanBeDistributed ≠ canBeDistributedYes then
                .error (.filter "cannot be distributed")
              else
                .ok n

/-! ### `content/export.go` — the per-item Exporter -/

/-- The calls `Exporter.Export`/`Exporter.Delete` make against their
collaborators, recorded as a trace. -/
inductive ExporterCall where
  | getContent (uuid tid : String)
  | upload (payload tid uuid date : String)
  | delete (uuid tid : String)
deriving DecidableEq, Repr

/-- The `fetcher`/`updater` collaborators (`content/export.go` interfaces),
as oracles: `getContent` returns the payload bytes or an error,
`upload`/`delete` return `some err` on failure and `none` on success. -/
structure Collaborators where
  getContent : String → String → Except String String
  upload : String → String → String → String → Option String
  delete : String → String → Option String

/-- `Exporter.Export` (`content/export.go`): fetch via
`fetcher.GetContent(doc.UUID, tid)`; on error wrap with `"getting content"`;
otherwise `updater.Upload(payload, tid, doc.UUID, doc.Date)`, wrapping a
failure with `"uploading content"`.  Returns the error outcome and the
trace of collaborator calls. -/
def Exporter.Export (c : Collaborators) (tid : String) (doc : Stub) :
    Option String × List ExporterCall :=
  match c.getContent doc.UUID tid with
  | .error err =>
    (some ("getting content: " ++ err), [.getContent doc.UUID tid])
  | .ok payload =>
    match c.upload payload tid doc.UUID doc.Date with
    | some err =>
      (some ("uploading content: " ++ err),
        [.getContent doc.UUID tid, .upload payload tid doc.UUID doc.Date])
    | none =>
      (none, [.getContent doc.UUID tid, .upload payload tid doc.UUID doc.Date])

/-- `Exporter.Delete` (`content/export.go`): delegates to
`updater.Delete(uuid, tid)`. -/
def Exporter.Delete (c : Collaborators) (uuid tid : String) :
    Option String × List ExporterCall :=
  (c.delete uuid tid, [.delete uuid tid])

/-! ### `queue/notification.go` — the notification handler -/

/-- Runtime outcomes the handler's `select` and exporter calls depend on:
whether the notification's `Quit` channel fires before the
`time.After(delay)` timer, and the outcomes of `exporter.Export` /
`exporter.Delete` when called. -/
structure HandlerOracle where
  quitBeforeDelay : Bool
  exportResult : Option String
  deleteResult : Option String

/-- The exporter calls made by `handleNotification`, as a trace. -/
inductive HandlerCall where
  | exportCall (tid : String) (stub : Stub)
  | deleteCall (uuid tid : String)
deriving DecidableEq, Repr

/-- `NotificationHandler.handleNotification` (`queue/notification.go`):
`UPDATE` waits on the delay timer vs the quit channel (`quitBeforeDelay`
records which fires first); `DELETE` calls `exporter.Delete` immediately,
consulting neither the delay nor the quit channel; any other event type is
an error and calls nothing.  The `delay` field itself only sets the timer
duration and does not affect which branch is taken. -/
def NotificationHandler.handleNotification (o : HandlerOracle) (n : Notification) :
    Option String × List HandlerCall :=
  if n.evType = UPDATE then
    if o.quitBeforeDelay then
      (some "delayed update terminated due to shutdown signal", [])
    else
      match o.exportResult with
      | some err => (some ("exporting content: " ++ err), [.exportCall n.tid n.stub])
      | none => (none, [.exportCall n.tid n.stub])
  else if n.evType = DELETE then
    match o.deleteResult with
    | some err => (some ("deleting content: " ++ err), [.deleteCall n.stub.UUID n.tid])
    | none => (none, [.deleteCall n.stub.UUID n.tid])
  else
    (some "unsupported event type", [])

/-! ### `export` package — Job registry and snapshots -/

/-- `export.Job` (public, JSON-visible fields).  The runtime fields
(`lock`, `wg`, `log`, `nrWorker`, `contentRetrievalThrottle`) carry no
observable data; `isFullExport` is kept because `IsFullExportRunning`
reads it. -/
structure Job where
  ID : String
  Count : Nat
  Progress : Nat
  Failed : List String
  Status : State
  ErrorMessage : String
  isFullExport : Bool
deriving DecidableEq, Repr

/-- `Job.Copy`: the snapshot constructor copies exactly
`Progress, Status, ID, Count, Failed`; every other field — in particular
`ErrorMessage` — is left at its Go zero value. -/
def Job.Copy (j : Job) : Job :=
  { Progress := j.Progress
    Status := j.Status
    ID := j.ID
    Count := j.Count
    Failed := j.Failed
    ErrorMessage := ""
    isFullExport := false }

/-- `export.FullExporter`: the in-memory job registry.  The Go
`map[string]*Job` is modelled as an association list keyed by job ID
(map iteration order is arbitrary in Go; properties proved below are
order-independent). -/
structure FullExporter where
  jobs : List (String × Job)
  nrOfConcurrentWorkers : Nat

/-- `ErrJobNotFound = fmt.Errorf("job not found")`. -/
def ErrJobNotFound : String := "job not found"

/-- `FullExporter.GetJob`: look the job up by ID and return a `Copy`
snapshot, or `ErrJobNotFound`. -/
def FullExporter.GetJob (fe : FullExporter) (jobID : String) : Except String Job :=
  match fe.jobs.lookup jobID with
  | none => .error ErrJobNotFound
  | some job => .ok job.Copy

/-- `FullExporter.GetRunningJobs`: `Copy` snapshots of the jobs whose
status is `RUNNING`. -/
def FullExporter.GetRunningJobs (fe : FullExporter) : List Job :=
  (fe.jobs.filter (fun p => p.2.Status = State.RUNNING)).map (fun p => p.2.Copy)

/-- `FullExporter.IsFullExportRunning`: some registered job has
`isFullExport` set and is not `FINISHED`. -/
def FullExporter.IsFullExportRunning (fe : FullExporter) : Bool :=
  fe.jobs.any (fun p => p.2.isFullExport && p.2.Status ≠ State.FINISHED)

/-! ### Job status lifecycle (`Job.RunExport`, `RequestHandler.startExport`) -/

/-- The status-mutating operations of a job's life after `NewJob`
(status `STARTING`):
* `runExportStart` — first statement of `Job.RunExport`: `job.Status = RUNNING`;
* `runExportFinish` — after the stub channel closes and `wg.Wait()` returns:
  `job.Status = FINISHED`;
* `inquirerFail` — `startExport`'s error path when `inquirer.Inquire` fails:
  `job.ErrorMessage = msg; job.Status = FINISHED` (without ever entering
  `RunExport`). -/
inductive JobOp where
  | runExportStart
  | runExportFinish
  | inquirerFail
deriving DecidableEq, Repr

/-- The status written by each operation (each is an unconditional
assignment in the source). -/
def applyOp : State → JobOp → State
  | _, .runExportStart => .RUNNING
  | _, .runExportFinish => .FINISHED
  | _, .inquirerFail => .FINISHED

/-- The complete operation sequence `startExport` performs on a job's
status, as a function of whether `inquirer.Inquire` returns an error
(`web/resources.go`, `startExport`): on error, only the direct
`FINISHED` write; otherwise `RunExport` runs, which writes `RUNNING` on
entry and `FINISHED` after draining. -/
def startExportOps : Bool → List JobOp
  | true => [.inquirerFail]
  | false => [.runExportStart, .runExportFinish]

/-- An operation sequence observable at some point in time: a prefix of a
complete `startExport` run (the job may still be in progress). -/
def reachableOps (ops : List JobOp) : Prop :=
  ∃ fails rest, ops ++ rest = startExportOps fails

/-- The sequence of statuses a job takes on: `STARTING` from `NewJob`,
then the result of each operation. -/
def statusTrace (ops : List JobOp) : List State :=
  List.scanl applyOp State.STARTING ops

/-- The transition set asserted by the spec sentence "`Starting → Running →
Finished`; never backward": only `STARTING → RUNNING` and
`RUNNING → FINISHED`. -/
abbrev claimedTransition (s t : State) : Prop :=
  (s = .STARTING ∧ t = .RUNNING) ∨ (s = .RUNNING ∧ t = .FINISHED)

/-- Every adjacent pair of a status trace satisfies `R`. -/
def adjacentOK (R : State → State → Prop) : List State → Prop
  | s :: t :: rest => R s t ∧ adjacentOK R (t :: rest)
  | _ => True

/-- Rank for the forward direction of the lifecycle. -/
def stateRank : State → Nat
  | .STARTING => 0
  | .RUNNING => 1
  | .FINISHED => 2

/-! ### `Job.RunExport` as a small-step system

`RunExport` receives stubs from the `docs` channel; for each one it
acquires a worker slot, increments `job.Progress`, and spawns a worker
that calls the export function and, on error, appends the stub's UUID to
`job.Failed`.  When the channel closes it waits for all workers and sets
`FINISHED`.  A stub is modelled as its UUID paired with whether its export
call will fail (the export function is an external oracle); `remaining`
is what the channel will still deliver, `inFlight` the spawned,
unfinished workers.  The worker-pool semaphore bounds concurrency only
and does not affect the counters, so it is not modelled here. -/

/-- The mutable per-job state read/written by `RunExport` and its
workers. -/
structure RunState where
  progress : Nat
  failed : List String
  inFlight : List (String × Bool)
  remaining : List (String × Bool)
  status : State
deriving DecidableEq, Repr

/-- State at the first statement of `RunExport` (`job.Status = RUNNING`);
`progress`/`failed` are zero-valued from `NewJob`. -/
def initRun (stubs : List (String × Bool)) : RunState :=
  { progress := 0
    failed := []
    inFlight := []
    remaining := stubs
    status := State.RUNNING }

/-- One scheduler step of `RunExport` and its worker goroutines:
* `receive` — the loop receives a stub, increments `Progress` and spawns
  a worker (main loop runs only while the job is `RUNNING`);
* `completeOk` — any in-flight worker whose export call succeeds returns;
* `completeFail` — any in-flight worker whose export call fails appends
  the UUID to `Failed` (under the job lock) and returns;
* `finish` — the channel is drained and `wg.Wait()` returned:
  `job.Status = FINISHED`. -/
inductive RunStep : RunState → RunState → Prop
  | receive (s : RunState) (u : String) (b : Bool) (rest : List (String × Bool))
      (hrem : s.remaining = (u, b) :: rest) (hst : s.status = State.RUNNING) :
      RunStep s { s with
        progress := s.progress + 1
        inFlight := s.inFlight ++ [(u, b)]
        remaining := rest }
  | completeOk (s : RunState) (u : String) (l1 l2 : List (String × Bool))
      (hin : s.inFlight = l1 ++ (u, false) :: l2) :
      RunStep s { s with inFlight := l1 ++ l2 }
  | completeFail (s : RunState) (u : String) (l1 l2 : List (String × Bool))
      (hin : s.inFlight = l1 ++ (u, true) :: l2) :
      RunStep s { s with
        failed := s.failed ++ [u]
        inFlight := l1 ++ l2 }
  | finish (s : RunState)
      (hrem : s.remaining = []) (hin : s.inFlight = [])
      (hst : s.status = State.RUNNING) :
      RunStep s { s with status := State.FINISHED }

/-- States reachable during a `RunExport` run that was handed `stubs` by
the inquirer's channel. -/
inductive RunReachable (stubs : List (String × Bool)) : RunState → Prop
  | init : RunReachable stubs (initRun stubs)
  | step {s t : RunState} :
      RunReachable stubs s → RunStep s t → RunReachable stubs t

/-! ### `web/resources.go` — the `/export` endpoint -/

/-- Outcome of reading and JSON-decoding the request body inside
`getCandidateUUIDs`: read error, unmarshal error, a JSON object without an
`ids` key, an `ids` value that is not a string, or the `ids` string. -/
inductive BodyParse where
  | readError (err : String)
  | malformed (err : String)
  | noIdsField
  | idsNotString
  | idsString (s : String)
deriving DecidableEq, Repr

/-- `strings.Split(s, ",")` helper: split at commas, accumulating the
current segment in reverse. -/
def splitCommaAux : List Char → List Char → List String
  | [], acc => [String.mk acc.reverse]
  | ',' :: cs, acc => String.mk acc.reverse :: splitCommaAux cs []
  | c :: cs, acc => splitCommaAux cs (c :: acc)

/-- `strings.Split(s, ",")` (note `strings.Split("", ",") = [""]`). -/
def splitComma (s : String) : List String :=
  splitCommaAux s.toList []

/-- `getCandidateUUIDs` (`web/resources.go`): propagate body/decode
errors, then split the `ids` string on commas. -/
def getCandidateUUIDs : BodyParse → Except String (List String)
  | .readError err => .error ("reading request body: " ++ err)
  | .malformed err => .error ("unmarshaling request body: " ++ err)
  | .noIdsField => .error "\x27ids\x27 field in request body not found"
  | .idsNotString => .error "\x27ids\x27 field is not a string"
  | .idsString s => .ok (splitComma s)

/-- The parts of the HTTP request the handler reads: the `fullExport`
query parameter (a missing parameter reads as `""`) and the body parse
outcome. -/
structure ExportRequest where
  fullExportParam : String
  body : BodyParse
deriving DecidableEq, Repr

/-- Environment oracles for one request: whether the listener receives the
`true` sent on `Locked` within the 3-second budget, whether an `Acked`
token arrives within the 20-second budget, and whether
`inquirer.Inquire` returns an error. -/
structure LockerEnv where
  lockAccepted : Bool
  ackDelivered : Bool
  inquireFails : Bool
deriving DecidableEq, Repr

/-- The HTTP response as the handler writes it: status code plus either
`sendErrorResponse`'s error message or, on 202, the new-job response
fields `ID`/`Status`. -/
structure Response where
  statusCode : Nat
  errorMsg : Option String
  jobID : Option String
  jobStatus : Option State
deriving DecidableEq, Repr

/-- The externally visible actions of `Export`/`startExport`, in program
order (`startExport` runs in its own goroutine; its actions follow the
handshake and the job registration). -/
inductive ExportEvent where
  | lockRequested
  | ackReceived
  | jobRegistered
  | inquireCalled
  | inquirerFailed
  | runExportCalled
  | resumeSent
deriving DecidableEq, Repr

/-- `RequestHandler.startExport` (`web/resources.go`): call the inquirer;
on error set `ErrorMessage`/`FINISHED` and return; otherwise set `Count`
and run `RunExport`.  When incremental export is enabled, a deferred send
of `false` on `Locked` runs after either path returns. -/
def startExportEvents (isIncExportEnabled : Bool) (env : LockerEnv) :
    List ExportEvent :=
  let core :=
    if env.inquireFails then
      [ExportEvent.inquireCalled, ExportEvent.inquirerFailed]
    else
      [ExportEvent.inquireCalled, ExportEvent.runExportCalled]
  if isIncExportEnabled then core ++ [ExportEvent.resumeSent] else core

/-- The tail of `RequestHandler.Export` after validation: the Locker
handshake (3 s / 20 s budgets) when incremental export is enabled, then
job creation, `AddJob`, the `startExport` goroutine and the 202 response.
The response's `Status` field is read from the freshly created job before
the goroutine is launched, so it is always `STARTING`; `newJobID` stands
for the generated `uuid.New().String()`. -/
def exportHandlerLocked (isIncExportEnabled : Bool) (env : LockerEnv)
    (newJobID : String) : Response × List ExportEvent :=
  if isIncExportEnabled then
    if ¬ env.lockAccepted then
      (⟨503, some "Lock initiation timed out", none, none⟩, [])
    else if ¬ env.ackDelivered then
      (⟨503, some "Stopping kafka consumption timed out", none, none⟩,
        [ExportEvent.lockRequested])
    else
      (⟨202, none, some newJobID, some State.STARTING⟩,
        ExportEvent.lockRequested :: ExportEvent.ackReceived ::
          ExportEvent.jobRegistered :: startExportEvents true env)
  else
    (⟨202, none, some newJobID, some State.STARTING⟩,
      ExportEvent.jobRegistered :: startExportEvents false env)

/-- `RequestHandler.Export` (`web/resources.go`, lines 110-174), validation
phase in source order: running-jobs guard first, then the body/flag
checks; a failed body parse together with `fullExport=true` and a parsed
ids list without the flag both fall through to `exportHandlerLocked`. -/
def exportHandler (fe : FullExporter) (isIncExportEnabled : Bool)
    (env : LockerEnv) (req : ExportRequest) (newJobID : String) :
    Response × List ExportEvent :=
  if 0 < fe.GetRunningJobs.length then
    (⟨400, some "There are already running export jobs. Please wait them to finish",
      none, none⟩, [])
  else
    let isFullExport := req.fullExportParam = "true"
    match getCandidateUUIDs req.body with
    | .error _ =>
      if ¬ isFullExport then
        (⟨400, some "Pass a list of ids or trigger a full export flag", none, none⟩, [])
      else
        exportHandlerLocked isIncExportEnabled env newJobID
    | .ok _ =>
      if isFullExport then
        (⟨400, some "Pass either a list of ids or the full export flag, not both",
          none, none⟩, [])
      else
        exportHandlerLocked isIncExportEnabled env newJobID

/-! ### The Listener and the Locker as an interleaving system

`Listener.Start` (main loop), `Listener.handleNotifications` (dispatch
loop) and the HTTP export initiator run concurrently and communicate
through the shared `paused` flag, the capacity-1 `received` channel and
the unbuffered `Locked`/`Acked` channels (`queue` listener source,
`export.Locker`).  Unbuffered channel operations are modelled as joint
rendezvous steps.  The producer side (`handleMessage`) is
over-approximated: it may refill `received` whenever it is empty, which
only adds behaviours.  One lock/ack/resume cycle of a single initiator is
modelled — exports are serialized by the running-jobs guard. -/

/-- Program counter of `handleNotifications`: waiting on `received`
(`idle`); holding a drained notification just before the `if l.paused`
read (`checkPause`); inside the 500 ms poll loop (`waitUnpause`); past the
pause check, at the worker-slot acquisition and `go` statement
(`dispatching`). -/
inductive DispatcherPC where
  | idle
  | checkPause
  | waitUnpause
  | dispatching
deriving DecidableEq, Repr

/-- Program counter of the `Listener.Start` main loop during one lock
cycle: before receiving on `Locked` (`sel`); between `pauseConsuming` and
the `Acked` send (`pausing` is the point after the `Locked` receive,
`acking` after `paused` is set); `inLock` after the ack; `resuming` after
receiving `false` on `Locked`; `done` after `resumeConsuming`. -/
inductive MainPC where
  | sel
  | pausing
  | acking
  | inLock
  | resuming
  | done
deriving DecidableEq, Repr

/-- Program counter of the export initiator (`RequestHandler.Export` /
`startExport`): about to send `true` on `Locked`; waiting on `Acked`;
running the job; about to send `false` on `Locked`; finished. -/
inductive InitiatorPC where
  | sendLock
  | awaitAck
  | runningJob
  | sendResume
  | finished
deriving DecidableEq, Repr

/-- One configuration of the interleaving system.  `queued` is the
occupancy of the capacity-1 `received` channel; `inWindow` marks the
interval between the successful `Acked` rendezvous and the `Locked=false`
rendezvous; `dispatched` counts notifications handed to workers inside
that interval. -/
structure ListenerConfig where
  paused : Bool
  queued : Nat
  dpc : DispatcherPC
  mpc : MainPC
  ipc : InitiatorPC
  inWindow : Bool
  dispatched : Nat
deriving DecidableEq, Repr

/-- Initial configuration: nothing queued, nobody paused, the initiator
about to request the lock. -/
def initListener : ListenerConfig :=
  { paused := false
    queued := 0
    dpc := .idle
    mpc := .sel
    ipc := .sendLock
    inWindow := false
    dispatched := 0 }

/-- The interleaving steps.  Dispatcher steps mirror
`handleNotifications`: drain `received`, read `paused` (unsynchronized in
the source), poll while paused, then hand the notification to a worker.
Main-loop and initiator steps mirror `Listener.Start`'s `select` and the
handler's Locker protocol; `lockRendezvous`/`ackRendezvous`/
`resumeRendezvous` are the unbuffered channel synchronizations. -/
inductive LStep : ListenerConfig → ListenerConfig → Prop
  | produce (c : ListenerConfig) (h : c.queued = 0) :
      LStep c { c with queued := 1 }
  | drain (c : ListenerConfig) (hd : c.dpc = .idle) (hq : c.queued = 1) :
      LStep c { c with queued := 0, dpc := .checkPause }
  | seePaused (c : ListenerConfig) (hd : c.dpc = .checkPause)
      (hp : c.paused = true) :
      LStep c { c with dpc := .waitUnpause }
  | seeUnpaused (c : ListenerConfig) (hd : c.dpc = .checkPause)
      (hp : c.paused = false) :
      LStep c { c with dpc := .dispatching }
  | pollDone (c : ListenerConfig) (hd : c.dpc = .waitUnpause)
      (hp : c.paused = false) :
      LStep c { c with dpc := .dispatching }
  | dispatch (c : ListenerConfig) (hd : c.dpc = .dispatching) :
      LStep c { c with
        dpc := .idle
        dispatched := if c.inWindow then c.dispatched + 1 else c.dispatched }
  | lockRendezvous (c : ListenerConfig) (hm : c.mpc = .sel)
      (hi : c.ipc = .sendLock) :
      LStep c { c with mpc := .pausing, ipc := .awaitAck }
  | setPaused (c : ListenerConfig) (hm : c.mpc = .pausing) :
      LStep c { c with paused := true, mpc := .acking }
  | ackRendezvous (c : ListenerConfig) (hm : c.mpc = .acking)
      (hi : c.ipc = .awaitAck) :
      LStep c { c with
        mpc := .inLock
        ipc := .runningJob
        inWindow := true
        dispatched := 0 }
  | jobDone (c : ListenerConfig) (hi : c.ipc = .runningJob) :
      LStep c { c with ipc := .sendResume }
  | resumeRendezvous (c : ListenerConfig) (hm : c.mpc = .inLock)
      (hi : c.ipc = .sendResume) :
      LStep c { c with mpc := .resuming, ipc := .finished, inWindow := false }
  | clearPaused (c : ListenerConfig) (hm : c.mpc = .resuming) :
      LStep c { c with paused := false, mpc := .done }

/-- Configurations reachable from `initListener` under any interleaving. -/
inductive LReachable : ListenerConfig → Prop
  | init : LReachable initListener
  | step {c d : ListenerConfig} : LReachable c → LStep c d → LReachable d

/-! ## Theorems -/

/-- C8: `Exporter.Export` fetches first and never uploads on a fetch
error (wrapping it with `"getting content"`); on a successful fetch it
uploads exactly the fetched payload with the stub's tid/uuid/date,
wrapping a failure with `"uploading content"`; and it returns no error
exactly when both calls succeed. -/
theorem c8_export_stages (c : Collaborators) (tid : String) (doc : Stub) :
    (∀ err, c.getContent doc.UUID tid = .error err →
      Exporter.Export c tid doc =
        (some ("getting content: " ++ err), [ExporterCall.getContent doc.UUID tid])) ∧
    (∀ payload, c.getContent doc.UUID tid = .ok payload →
      Exporter.Export c tid doc =
        (Option.map (fun e => "uploading content: " ++ e)
            (c.upload payload tid doc.UUID doc.Date),
          [ExporterCall.getContent doc.UUID tid,
            ExporterCall.upload payload tid doc.UUID doc.Date])) ∧
    ((Exporter.Export c tid doc).1 = none ↔
      ∃ payload, c.getContent doc.UUID tid = .ok payload ∧
        c.upload payload tid doc.UUID doc.Date = none) := by
  refine ⟨fun err h => ?_, fun payload h => ?_, ?_⟩
  · simp [Exporter.Export, h]
  · cases hu : c.upload payload tid doc.UUID doc.Date <;>
      simp [Exporter.Export, h, hu]
  · cases hg : c.getContent doc.UUID tid with
    | error e => simp [Exporter.Export, hg]
    | ok p =>
      cases hu : c.upload p tid doc.UUID doc.Date <;>
        simp [Exporter.Export, hg, hu]

/-- Collaborators whose fetch and upload both succeed. -/
def collabOk : Collaborators :=
  { getContent := fun _ _ => .ok "payloadBytes"
    upload := fun _ _ _ _ => none
    delete := fun _ _ => none }

/-- A concrete stub. -/
def stubA : Stub :=
  { UUID := "811e0591-5c71-4457-b8eb-8c22cf093117"
    Date := "2024-01-17"
    ContentType := "Article"
    CanBeDistributed := "yes"
    Publication := none }

/-- Witness for C8 at concrete collaborators: a successful fetch leads to
exactly one upload of the fetched payload and no error. -/
theorem c8_export_stages_witness :
    Exporter.Export collabOk "tid_1" stubA =
      (none,
        [ExporterCall.getContent "811e0591-5c71-4457-b8eb-8c22cf093117" "tid_1",
          ExporterCall.upload "payloadBytes" "tid_1"
            "811e0591-5c71-4457-b8eb-8c22cf093117" "2024-01-17"]) := by
  have h := (c8_export_stages collabOk "tid_1" stubA).2.1 "payloadBytes" rfl
  simpa [collabOk, stubA] using h

/-- C5: `handleNotification` on an `UPDATE` whose quit channel fires
before the delay returns the shutdown error and calls nothing; on an
`UPDATE` that outlives the delay it calls `exporter.Export(tid, stub)`;
on a `DELETE` it calls `exporter.Delete(stub.UUID, tid)` immediately,
regardless of the quit/delay race; on any other event type it returns the
"unsupported event type" error and calls neither. -/
theorem c5_notification_handler (o : HandlerOracle) (n : Notification) :
    (n.evType = UPDATE → o.quitBeforeDelay = true →
      NotificationHandler.handleNotification o n =
        (some "delayed update terminated due to shutdown signal", [])) ∧
    (n.evType = UPDATE → o.quitBeforeDelay = false →
      (NotificationHandler.handleNotification o n).2 =
        [HandlerCall.exportCall n.tid n.stub]) ∧
    (n.evType = DELETE →
      (NotificationHandler.handleNotification o n).2 =
        [HandlerCall.deleteCall n.stub.UUID n.tid]) ∧
    (n.evType ≠ UPDATE → n.evType ≠ DELETE →
      NotificationHandler.handleNotification o n =
        (some "unsupported event type", [])) := by
  refine ⟨fun h hq => ?_, fun h hq => ?_, fun h => ?_, fun h1 h2 => ?_⟩
  · simp [NotificationHandler.handleNotification, h, hq]
  · cases he : o.exportResult <;>
      simp [NotificationHandler.handleNotification, h, hq, he]
  · have hne : ¬ (DELETE = UPDATE) := by decide
    cases hd : o.deleteResult <;>
      simp [NotificationHandler.handleNotification, h, hne, hd]
  · simp [NotificationHandler.handleNotification, h1, h2]

/-- A notification carrying a `DELETE` event. -/
def notifDelete : Notification :=
  { stub := stubA, evType := DELETE, tid := "tid_1" }

/-- An oracle where the quit channel would fire first and all calls
succeed. -/
def oracleQuit : HandlerOracle :=
  { quitBeforeDelay := true, exportResult := none, deleteResult := none }

/-- Witness for C5: a `DELETE` notification triggers exactly one
`Delete(stub.UUID, tid)` call even while shutdown is signalled. -/
theorem c5_notification_handler_witness :
    (NotificationHandler.handleNotification oracleQuit notifDelete).2 =
      [HandlerCall.deleteCall "811e0591-5c71-4457-b8eb-8c22cf093117" "tid_1"] := by
  have h := (c5_notification_handler oracleQuit notifDelete).2.2.1 rfl
  simpa [notifDelete, stubA] using h

/-- C10: every snapshot observable through `GetJob` or `GetRunningJobs`
is a `Job.Copy`, whose `ErrorMessage` is always the empty string — the
error message set by a terminal inquirer failure is never observable
through these accessors. -/
theorem c10_snapshot_error_hidden (fe : FullExporter) :
    (∀ jobID j, fe.GetJob jobID = .ok j → j.ErrorMessage = "") ∧
    (∀ j, j ∈ fe.GetRunningJobs → j.ErrorMessage = "") := by
  constructor
  · intro jobID j h
    unfold FullExporter.GetJob at h
    cases hl : fe.jobs.lookup jobID with
    | none => rw [hl] at h; cases h
    | some job =>
      rw [hl] at h
      cases h
      rfl
  · intro j h
    unfold FullExporter.GetRunningJobs at h
    obtain ⟨p, _, hp⟩ := List.mem_map.mp h
    rw [← hp]
    rfl

/-- A job whose `ErrorMessage` was set by the inquirer-failure path of
`startExport`. -/
def jobFailedInquiry : Job :=
  { ID := "job1"
    Count := 0
    Progress := 0
    Failed := []
    Status := State.RUNNING
    ErrorMessage := "Failed to read content from mongo"
    isFullExport := false }

/-- A registry holding that job. -/
def feWithError : FullExporter :=
  { jobs := [("job1", jobFailedInquiry)], nrOfConcurrentWorkers := 20 }

/-- Witness for C10: looking up the job with the non-empty error message
yields a snapshot whose `ErrorMessage` is empty. -/
theorem c10_snapshot_error_hidden_witness :
    jobFailedInquiry.Copy.ErrorMessage = "" :=
  (c10_snapshot_error_hidden feWithError).1 "job1" jobFailedInquiry.Copy rfl

/-- A mapper that allows every origin, content type `Article`, and
publication `pub1`. -/
def mapperArticlePub : MessageMapper :=
  NewMessageMapper (fun _ => true) ["Article"] ["pub1"]

/-- A mapper configured with an empty publication allow-list. -/
def mapperNoAllowedPubs : MessageMapper :=
  NewMessageMapper (fun _ => true) ["Article"] []

/-- A content URI carrying a UUID. -/
def uriA : String :=
  "http://upp-content-validator.svc.ft.com/content/811e0591-5c71-4457-b8eb-8c22cf093117"

/-- A payload whose `publication` field is present but empty
(`"publication": []` on the wire). -/
def payloadEmptyPub : Payload :=
  { deleted := false
    canBeDistributed := ""
    typ := "Article"
    publication := some []
    firstPublishedDate := ""
    publishedDate := "" }

/-- A payload carrying publication `pub1`. -/
def payloadWithPub : Payload :=
  { payloadEmptyPub with publication := some ["pub1"] }

/-- A well-formed message with the present-but-empty publication list. -/
def msgEmptyPub : FTMessage :=
  { requestID := "tid_1", body := .wellFormed ⟨uriA, payloadEmptyPub⟩ }

/-- A well-formed message with publication `pub1`. -/
def msgWithPub : FTMessage :=
  { requestID := "tid_1", body := .wellFormed ⟨uriA, payloadWithPub⟩ }

/-- C2 counterexample.  First conjunct: a present-but-*empty* publication
list is rejected with "Unsupported publication" (the code bypasses the
check only for a nil list, `if notification.Stub.Publication != nil`),
whereas the claim says an empty `publication` field bypasses the check.
Second conjunct: with an *empty* configured allow-list the check still
applies and rejects every message with a present publication list,
whereas the claim says the check applies only when the allow-list is
configured non-empty. -/
theorem c2_counterexample :
    MessageMapper.mapNotification mapperArticlePub msgEmptyPub =
      .error (.filter "Unsupported publication") ∧
    MessageMapper.mapNotification mapperNoAllowedPubs msgWithPub =
      .error (.filter "Unsupported publication") :=
  ⟨rfl, rfl⟩

/-- C2 amended: for a message that passes the synthetic, decode, origin,
UUID and content-type rules, the mapper rejects with
"Unsupported publication" exactly when the payload's publication list is
present (non-nil, even if empty) and none of its entries is in the
configured allow-list; the check is bypassed only for an absent (nil)
publication field, and it applies whether or not the allow-list is
empty. -/
theorem c2_amended (m : MessageMapper) (tid : String) (e : Event)
    (hsynth : strStartsWith tid "SYNTH" = false)
    (horigin : m.originAllowed e.contentURI = true)
    (huuid : ¬ findUUID e.contentURI = "")
    (htype : m.allowedContentTypes.contains e.payload.typ = true) :
    (e.payload.publication = none →
      MessageMapper.mapNotification m ⟨tid, .wellFormed e⟩ ≠
        .error (.filter "Unsupported publication")) ∧
    (∀ pubs, e.payload.publication = some pubs →
      ((pubs.any fun v => m.allowedPublishUUIDs.contains v) = false →
        MessageMapper.mapNotification m ⟨tid, .wellFormed e⟩ =
          .error (.filter "Unsupported publication")) ∧
      ((pubs.any fun v => m.allowedPublishUUIDs.contains v) = true →
        MessageMapper.mapNotification m ⟨tid, .wellFormed e⟩ ≠
          .error (.filter "Unsupported publication"))) := by
  have htype2 : e.payload.typ ∈ m.allowedContentTypes := by simpa using htype
  refine ⟨fun hp => ?_, fun pubs hp => ⟨fun ha => ?_, fun ha => ?_⟩⟩
  · by_cases hd : ¬ e.payload.canBeDistributed = "" ∧
        ¬ e.payload.canBeDistributed = canBeDistributedYes <;>
      simp [MessageMapper.mapNotification, Event.toNotification,
        hsynth, horigin, htype2, huuid, hp, hd]
  · have ha2 : ∀ x ∈ pubs, x ∉ m.allowedPublishUUIDs := by simpa using ha
    simp only [MessageMapper.mapNotification, Event.toNotification,
      hsynth, Bool.false_eq_true, if_false, horigin, htype2, huuid, hp]
    simp [ha2, hsynth, horigin, htype2, huuid]
    exact fun x hx hmem => absurd hmem (ha2 x hx)
  · have ha2 : ∃ x ∈ pubs, x ∈ m.allowedPublishUUIDs := by simpa using ha
    by_cases hd : ¬ e.payload.canBeDistributed = "" ∧
        ¬ e.payload.canBeDistributed = canBeDistributedYes <;>
      simp [MessageMapper.mapNotification, Event.toNotification,
        hsynth, horigin, htype2, huuid, hp, ha2, hd]

/-- Witness for C2 amended at a concrete mapper and message: the
publication list `["pub2"]` shares no entry with the allow-list
`["pub1"]`, so the mapper rejects with "Unsupported publication". -/
theorem c2_amended_witness :
    MessageMapper.mapNotification mapperArticlePub
        ⟨"tid_1", .wellFormed ⟨uriA, { payloadEmptyPub with publication := some ["pub2"] }⟩⟩ =
      .error (.filter "Unsupported publication") :=
  ((c2_amended mapperArticlePub "tid_1"
      ⟨uriA, { payloadEmptyPub with publication := some ["pub2"] }⟩
      (by decide) rfl (by decide) (by decide)).2 ["pub2"] rfl).1 (by decide)

/-! Spec-side rule chain for the filter-ordering claim: each rule is an
independent predicate, and `firstViolation` applies them in the order the
spec lists (synthetic, decode, origin, UUID extraction, event type —
which never rejects — content type, publication, distributability),
returning the failure of the first violated rule. -/

/-- Rule 1: synthetic transaction id. -/
def ruleSynthetic (msg : FTMessage) : Bool :=
  strStartsWith msg.requestID "SYNTH"

/-- Rule 3: content origin not in the allow-list. -/
def ruleOriginViolated (m : MessageMapper) (e : Event) : Bool :=
  ! m.originAllowed e.contentURI

/-- Rule 4: no UUID in the content URI. -/
def ruleUUIDMissing (e : Event) : Bool :=
  findUUID e.contentURI == ""

/-- Rule 6: content type not in the allow-list. -/
def ruleTypeViolated (m : MessageMapper) (e : Event) : Bool :=
  ! m.allowedContentTypes.contains e.payload.typ

/-- Rule 7: publication list present with no allowed entry. -/
def rulePublicationViolated (m : MessageMapper) (e : Event) : Bool :=
  match e.payload.publication with
  | some pubs => ! pubs.any (fun v => m.allowedPublishUUIDs.contains v)
  | none => false

/-- Rule 8: `canBeDistributed` present and not `"yes"`. -/
def ruleDistributabilityViolated (e : Event) : Bool :=
  e.payload.canBeDistributed != "" && e.payload.canBeDistributed != canBeDistributedYes

/-- The ordered rule chain as the claim states it: the first violated
rule's failure, or the notification when every rule passes (rule 2, the
JSON decode, fires for a malformed body; rule 5, the event-type
determination, never rejects). -/
def firstViolation (m : MessageMapper) (msg : FTMessage) :
    Except MapError Notification :=
  if ruleSynthetic msg then
    .error (.filter "synthetic publication")
  else
    match msg.body with
    | .malformed err => .error (.mapping ("error unmarshaling event: " ++ err))
    | .wellFormed e =>
      if ruleOriginViolated m e then
        .error (.filter ("uri " ++ e.contentURI ++ " not allowed"))
      else if ruleUUIDMissing e then
        .error (.mapping "error building notification: contentURI does not contain a UUID")
      else if ruleTypeViolated m e then
        .error (.filter ("type " ++ e.payload.typ ++ " not allowed"))
      else if rulePublicationViolated m e then
        .error (.filter "Unsupported publication")
      else if ruleDistributabilityViolated e then
        .error (.filter "cannot be distributed")
      else
        .ok
          { stub :=
              { UUID := findUUID e.contentURI
                Date := e.payload.getDateOrDefault
                CanBeDistributed := e.payload.canBeDistributed
                ContentType := e.payload.typ
                Publication := e.payload.publication }
            evType := if e.payload.deleted then DELETE else UPDATE
            tid := msg.requestID }

/-- C6: the mapper returns exactly the failure of the first violated rule
in the claimed order — in particular a `SYNTH` transaction id is rejected
as synthetic even when the body is malformed JSON — and a rejected
message never yields a notification (every rejecting branch returns an
error and no `Notification` value). -/
theorem c6_filter_ordering :
    (∀ (m : MessageMapper) (msg : FTMessage),
      MessageMapper.mapNotification m msg = firstViolation m msg) ∧
    (∀ (m : MessageMapper) (err : String),
      MessageMapper.mapNotification m ⟨"SYNTH_REQ_MON1", .malformed err⟩ =
        .error (.filter "synthetic publication")) := by
  have main : ∀ (m : MessageMapper) (msg : FTMessage),
      MessageMapper.mapNotification m msg = firstViolation m msg := by
    intro m msg
    obtain ⟨tid, body⟩ := msg
    cases hs : strStartsWith tid "SYNTH" with
    | true =>
      cases body <;>
        simp only [MessageMapper.mapNotification, firstViolation, ruleSynthetic, hs,
          if_true, ite_true]
    | false =>
      cases body with
      | malformed err =>
        simp only [MessageMapper.mapNotification, firstViolation, ruleSynthetic, hs,
          Bool.false_eq_true, if_false, ite_false]
      | wellFormed e =>
        cases ho : m.originAllowed e.contentURI with
        | false =>
          simp only [MessageMapper.mapNotification, firstViolation, ruleSynthetic,
            ruleOriginViolated, hs, ho, Bool.false_eq_true, if_false, ite_false,
            Bool.not_false, if_true, ite_true, not_false_iff, not_false_eq_true]
        | true =>
          by_cases hu : findUUID e.contentURI = ""
          · simp only [MessageMapper.mapNotification, firstViolation, ruleSynthetic,
              ruleOriginViolated, ruleUUIDMissing, Event.toNotification,
              hs, ho, hu, Bool.false_eq_true, if_false, ite_false, Bool.not_true,
              not_true, not_false_eq_true, if_true, ite_true, beq_self_eq_true,
              String.reduceAppend]
          · have hub : (findUUID e.contentURI == "") = false := by
              simpa using hu
            simp only [MessageMapper.mapNotification, firstViolation, ruleSynthetic,
              ruleOriginViolated, ruleUUIDMissing, Event.toNotification,
              hs, ho, hu, hub, Bool.false_eq_true, if_false, ite_false, Bool.not_true,
              not_true, not_false_eq_true, if_true, ite_true]
            cases ht : m.allowedContentTypes.contains e.payload.typ with
            | false =>
              simp only [ruleTypeViolated, ht, Bool.not_false, if_true, ite_true,
                not_false_eq_true, Bool.false_eq_true]
            | true =>
              simp only [ruleTypeViolated, ht, Bool.not_true, Bool.false_eq_true,
                if_false, ite_false, not_true, not_true_eq_false]
              cases hp : e.payload.publication with
              | none =>
                simp only [rulePublicationViolated, hp, Bool.false_eq_true,
                  if_false, ite_false, ruleDistributabilityViolated]
                simp only [Bool.and_eq_true, bne_iff_ne, ne_eq]
              | some pubs =>
                cases ha : pubs.any (fun v => m.allowedPublishUUIDs.contains v) with
                | false =>
                  simp only [rulePublicationViolated, hp, ha, Bool.not_false,
                    if_true, ite_true, Bool.false_eq_true, if_false, ite_false]
                | true =>
                  simp only [rulePublicationViolated, hp, ha, Bool.not_true,
                    Bool.false_eq_true, if_false, ite_false, if_true, ite_true,
                    ruleDistributabilityViolated]
                  simp only [Bool.and_eq_true, bne_iff_ne, ne_eq]
  exact ⟨main, fun m err => by
    rw [main m ⟨"SYNTH_REQ_MON1", .malformed err⟩]
    rfl⟩

/-- C1 counterexample: `startExport`'s inquirer-failure path is a
reachable operation sequence, and it moves the status from `STARTING`
directly to `FINISHED` — a transition that is neither
`STARTING → RUNNING` nor `RUNNING → FINISHED`, contradicting the claim
that no operation performs any other transition. -/
theorem c1_counterexample :
    reachableOps [JobOp.inquirerFail] ∧
    statusTrace [JobOp.inquirerFail] = [State.STARTING, State.FINISHED] ∧
    applyOp State.STARTING JobOp.inquirerFail = State.FINISHED ∧
    ¬ claimedTransition State.STARTING State.FINISHED :=
  ⟨⟨true, [], rfl⟩, rfl, rfl, by decide⟩

/-- The reachable operation sequences are exactly the prefixes of the two
complete runs. -/
theorem reachable_job_ops_cases (ops : List JobOp) (h : reachableOps ops) :
    ops = [] ∨ ops = [JobOp.inquirerFail] ∨ ops = [JobOp.runExportStart] ∨
      ops = [JobOp.runExportStart, JobOp.runExportFinish] := by
  obtain ⟨fails, rest, heq⟩ := h
  cases fails <;>
    simp only [startExportOps] at heq <;>
    rcases ops with _ | ⟨a, _ | ⟨b, _ | ⟨c, cs⟩⟩⟩ <;>
    simp_all

/-- C1 amended: along every reachable operation sequence the status never
moves backward (its rank is non-decreasing), and every transition is one
of `STARTING → RUNNING` (entry of `RunExport`), `RUNNING → FINISHED`
(completion of `RunExport`), or `STARTING → FINISHED` (the
inquirer-failure path of `startExport`, which the original claim
excluded). -/
theorem c1_amended (ops : List JobOp) (h : reachableOps ops) :
    adjacentOK (fun s t => stateRank s ≤ stateRank t) (statusTrace ops) ∧
    adjacentOK
      (fun s t => claimedTransition s t ∨ (s = State.STARTING ∧ t = State.FINISHED))
      (statusTrace ops) := by
  rcases reachable_job_ops_cases ops h with h1 | h1 | h1 | h1 <;> subst h1 <;>
    constructor <;>
    simp [adjacentOK, statusTrace, applyOp, stateRank, claimedTransition]

/-- Witness for C1 amended on the inquirer-failure run. -/
theorem c1_amended_witness :
    adjacentOK (fun s t => stateRank s ≤ stateRank t)
      (statusTrace [JobOp.inquirerFail]) ∧
    adjacentOK
      (fun s t => claimedTransition s t ∨ (s = State.STARTING ∧ t = State.FINISHED))
      (statusTrace [JobOp.inquirerFail]) :=
  c1_amended [JobOp.inquirerFail] ⟨true, [], rfl⟩

/-- Counting invariant of `RunExport`: spawned-but-unfinished workers plus
recorded failures never exceed `Progress`, and `Progress` plus what the
channel has still to deliver equals the total the channel delivers. -/
theorem run_counters_invariant (stubs : List (String × Bool)) (s : RunState)
    (h : RunReachable stubs s) :
    s.failed.length + s.inFlight.length ≤ s.progress ∧
    s.progress + s.remaining.length = stubs.length := by
  induction h with
  | init => simp [initRun]
  | step h1 h2 ih =>
    cases h2 with
    | receive u b rest hrem hst =>
      rw [hrem] at ih
      simp only [List.length_append, List.length_cons, List.length_nil] at ih ⊢
      omega
    | completeOk u l1 l2 hin =>
      rw [hin] at ih
      simp only [List.length_append, List.length_cons, List.length_nil] at ih ⊢
      omega
    | completeFail u l1 l2 hin =>
      rw [hin] at ih
      simp only [List.length_append, List.length_cons, List.length_nil] at ih ⊢
      omega
    | finish hrem hin hst =>
      simpa using ih

/-- The state reached after the channel delivers one stub to a job whose
inquirer-reported count was zero. -/
def overdeliveredState : RunState :=
  { progress := 1
    failed := []
    inFlight := [("u1", false)]
    remaining := []
    status := State.RUNNING }

/-- C9 counterexample: when the stub channel delivers more stubs than the
counted total (here: `count = 0` from the inquirer, one stub delivered —
the count comes from a separate `CountDocuments` call and the cursor is
streamed afterwards, so the two can disagree in both directions),
`Progress` exceeds `Count`: the reachable state has `progress = 1 > 0`,
refuting "progress ≤ count still holds when the stub channel delivers a
different number of stubs than the counted total". -/
theorem c9_counterexample :
    RunReachable [("u1", false)] overdeliveredState ∧
    overdeliveredState.progress = 1 ∧
    ¬ overdeliveredState.progress ≤ 0 :=
  ⟨RunReachable.step RunReachable.init
      (RunStep.receive (initRun [("u1", false)]) "u1" false [] rfl rfl),
    rfl, by decide⟩

/-- C9 amended: in every state reachable during `RunExport`, `Progress`
is non-decreasing across every step, `|Failed| ≤ Progress`, and
`Progress ≤ count` holds whenever the channel delivers at most `count`
stubs (in particular when it delivers exactly the counted total); the
unconditional `Progress ≤ count` of the original claim fails only on
over-delivery. -/
theorem c9_amended (stubs : List (String × Bool)) (count : Nat) (s : RunState)
    (h : RunReachable stubs s) (hcount : stubs.length ≤ count) :
    s.failed.length ≤ s.progress ∧ s.progress ≤ count ∧
    ∀ t, RunStep s t → s.progress ≤ t.progress := by
  obtain ⟨h1, h2⟩ := run_counters_invariant stubs s h
  refine ⟨by omega, by omega, fun t hstep => ?_⟩
  cases hstep <;> simp

/-- Witness for C9 amended at the one-stub run with `count = 1`. -/
theorem c9_amended_witness :
    overdeliveredState.failed.length ≤ overdeliveredState.progress ∧
    overdeliveredState.progress ≤ 1 ∧
    ∀ t, RunStep overdeliveredState t → overdeliveredState.progress ≤ t.progress :=
  c9_amended [("u1", false)] 1 overdeliveredState
    (RunReachable.step RunReachable.init
      (RunStep.receive (initRun [("u1", false)]) "u1" false [] rfl rfl))
    (by decide)

/-- A registered job in state `RUNNING`. -/
def jobRunning : Job :=
  { ID := "j1"
    Count := 0
    Progress := 0
    Failed := []
    Status := State.RUNNING
    ErrorMessage := ""
    isFullExport := false }

/-- A registry with one running job. -/
def feOneRunning : FullExporter :=
  { jobs := [("j1", jobRunning)], nrOfConcurrentWorkers := 20 }

/-- An empty registry. -/
def feEmpty : FullExporter :=
  { jobs := [], nrOfConcurrentWorkers := 20 }

/-- A request with no usable ids and no `fullExport` flag. -/
def reqNoIdsNoFlag : ExportRequest :=
  { fullExportParam := "", body := .noIdsField }

/-- A `fullExport=true` request with an empty body (no ids). -/
def reqFullNoIds : ExportRequest :=
  { fullExportParam := "true", body := .noIdsField }

/-- A Locker environment where the handshake succeeds and the inquirer
does not fail. -/
def envAllOk : LockerEnv :=
  { lockAccepted := true, ackDelivered := true, inquireFails := false }

/-- C4 counterexample: with a running job registered, a request whose body
yields no usable ids and whose `fullExport` parameter is not `"true"` is
answered 400 with the running-jobs message — not, as the claim's first
case asserts, with `Pass a list of ids or trigger a full export flag`:
the handler checks the running-jobs guard before the body checks. -/
theorem c4_counterexample :
    (exportHandler feOneRunning true envAllOk reqNoIdsNoFlag "id1").1 =
      ⟨400, some "There are already running export jobs. Please wait them to finish",
        none, none⟩ ∧
    ¬ (exportHandler feOneRunning true envAllOk reqNoIdsNoFlag "id1").1 =
      ⟨400, some "Pass a list of ids or trigger a full export flag", none, none⟩ :=
  ⟨rfl, by decide⟩

/-- C4 amended: the handler's checks run in the order running-jobs guard
first, then the body/flag validation, then the Locker handshake: a
request is answered 400 with the running-jobs message whenever some
registered job is `RUNNING` (regardless of its body); only with no
running job do the two 400 validation answers of the claim apply; and a
valid request is answered `202` with the new job's ID and status
`Starting` once the handshake (if enabled) succeeds. -/
theorem c4_amended (fe : FullExporter) (inc : Bool) (env : LockerEnv)
    (req : ExportRequest) (newJobID : String) :
    (0 < fe.GetRunningJobs.length ↔ ∃ p ∈ fe.jobs, p.2.Status = State.RUNNING) ∧
    (0 < fe.GetRunningJobs.length →
      (exportHandler fe inc env req newJobID).1 =
        ⟨400, some "There are already running export jobs. Please wait them to finish",
          none, none⟩) ∧
    (fe.GetRunningJobs.length = 0 →
      (∀ err, getCandidateUUIDs req.body = .error err →
        ¬ req.fullExportParam = "true" →
        (exportHandler fe inc env req newJobID).1 =
          ⟨400, some "Pass a list of ids or trigger a full export flag", none, none⟩) ∧
      (∀ ids, getCandidateUUIDs req.body = .ok ids →
        req.fullExportParam = "true" →
        (exportHandler fe inc env req newJobID).1 =
          ⟨400, some "Pass either a list of ids or the full export flag, not both",
            none, none⟩) ∧
      (∀ ids, getCandidateUUIDs req.body = .ok ids →
        ¬ req.fullExportParam = "true" →
        (inc = false ∨ (env.lockAccepted = true ∧ env.ackDelivered = true)) →
        (exportHandler fe inc env req newJobID).1 =
          ⟨202, none, some newJobID, some State.STARTING⟩) ∧
      (∀ err, getCandidateUUIDs req.body = .error err →
        req.fullExportParam = "true" →
        (inc = false ∨ (env.lockAccepted = true ∧ env.ackDelivered = true)) →
        (exportHandler fe inc env req newJobID).1 =
          ⟨202, none, some newJobID, some State.STARTING⟩)) := by
  refine ⟨?_, fun hrun => ?_, fun hlen => ⟨?_, ?_, ?_, ?_⟩⟩
  · simp [FullExporter.GetRunningJobs, List.length_pos, List.filter_eq_nil_iff]
  · simp [exportHandler, hrun]
  · intro err hcand hflag
    simp [exportHandler, hlen, hcand, hflag]
  · intro ids hcand hflag
    simp [exportHandler, hlen, hcand, hflag]
  · intro ids hcand hflag hlock
    rcases hlock with hinc | ⟨hl, ha⟩
    · simp [exportHandler, exportHandlerLocked, hlen, hcand, hflag, hinc]
    · cases inc <;>
        simp [exportHandler, exportHandlerLocked, hlen, hcand, hflag, hl, ha]
  · intro err hcand hflag hlock
    rcases hlock with hinc | ⟨hl, ha⟩
    · simp [exportHandler, exportHandlerLocked, hlen, hcand, hflag, hinc]
    · cases inc <;>
        simp [exportHandler, exportHandlerLocked, hlen, hcand, hflag, hl, ha]

/-- Witness for C4 amended: a registry with a running job answers 400
with the running-jobs message. -/
theorem c4_amended_witness :
    (exportHandler feOneRunning false envAllOk reqNoIdsNoFlag "id3").1 =
      ⟨400, some "There are already running export jobs. Please wait them to finish",
        none, none⟩ :=
  (c4_amended feOneRunning false envAllOk reqNoIdsNoFlag "id3").2.1 (by decide)

/-- C7: for a validated request with incremental export enabled, the
handler first performs the `Locked` send (503 "Lock initiation timed out"
on timeout, with no further events), then the `Acked` wait (503
"Stopping kafka consumption timed out" on timeout, with no job events);
only after both does the job pipeline run — the trace shows the job is
registered and the inquirer called strictly after `lockRequested` and
`ackReceived` — and after the export path returns (`runExportCalled` on
success, `inquirerFailed` on inquirer error) the deferred
`Locked <- false` resume is the final event. -/
theorem c7_locker_protocol (fe : FullExporter) (env : LockerEnv)
    (req : ExportRequest) (newJobID : String)
    (hrun : fe.GetRunningJobs.length = 0)
    (hvalid :
      (∃ ids, getCandidateUUIDs req.body = .ok ids ∧ ¬ req.fullExportParam = "true") ∨
      (∃ err, getCandidateUUIDs req.body = .error err ∧ req.fullExportParam = "true")) :
    (env.lockAccepted = false →
      exportHandler fe true env req newJobID =
        (⟨503, some "Lock initiation timed out", none, none⟩, [])) ∧
    (env.lockAccepted = true → env.ackDelivered = false →
      exportHandler fe true env req newJobID =
        (⟨503, some "Stopping kafka consumption timed out", none, none⟩,
          [ExportEvent.lockRequested])) ∧
    (env.lockAccepted = true → env.ackDelivered = true →
      exportHandler fe true env req newJobID =
        (⟨202, none, some newJobID, some State.STARTING⟩,
          [ExportEvent.lockRequested, ExportEvent.ackReceived,
            ExportEvent.jobRegistered, ExportEvent.inquireCalled,
            if env.inquireFails then ExportEvent.inquirerFailed
              else ExportEvent.runExportCalled,
            ExportEvent.resumeSent])) := by
  refine ⟨fun hl => ?_, fun hl ha => ?_, fun hl ha => ?_⟩
  · rcases hvalid with ⟨ids, hcand, hflag⟩ | ⟨err, hcand, hflag⟩ <;>
      simp [exportHandler, exportHandlerLocked, hrun, hcand, hflag, hl]
  · rcases hvalid with ⟨ids, hcand, hflag⟩ | ⟨err, hcand, hflag⟩ <;>
      simp [exportHandler, exportHandlerLocked, hrun, hcand, hflag, hl, ha]
  · rcases hvalid with ⟨ids, hcand, hflag⟩ | ⟨err, hcand, hflag⟩ <;>
      cases hq : env.inquireFails <;>
      simp [exportHandler, exportHandlerLocked, startExportEvents,
        hrun, hcand, hflag, hl, ha, hq]

/-- Witness for C7 on a concrete valid full-export request whose
handshake succeeds. -/
theorem c7_locker_protocol_witness :
    exportHandler feEmpty true envAllOk reqFullNoIds "id2" =
      (⟨202, none, some "id2", some State.STARTING⟩,
        [ExportEvent.lockRequested, ExportEvent.ackReceived,
          ExportEvent.jobRegistered, ExportEvent.inquireCalled,
          ExportEvent.runExportCalled, ExportEvent.resumeSent]) := by
  have h := (c7_locker_protocol feEmpty envAllOk reqFullNoIds "id2" rfl
      (Or.inr ⟨"\x27ids\x27 field in request body not found", rfl, by decide⟩)).2.2
    rfl rfl
  simpa [envAllOk] using h

/-- The configuration reached by the interleaving below: one notification
was handed to a worker strictly inside the ack→resume window. -/
def slippedConfig : ListenerConfig :=
  { paused := true
    queued := 0
    dpc := .idle
    mpc := .inLock
    ipc := .runningJob
    inWindow := true
    dispatched := 1 }

/-- C3 counterexample: an interleaving in which `handleNotifications`
drains a notification and passes its (unsynchronized) `paused` check
*before* the main loop sets `paused` and acks, then hands the
notification to a worker *after* the ack — one dispatch strictly inside
the paused interval, refuting "zero notifications are handed to workers
in every interleaving". -/
theorem c3_counterexample :
    LReachable slippedConfig ∧
    slippedConfig.inWindow = true ∧ slippedConfig.dispatched = 1 := by
  refine ⟨?_, rfl, rfl⟩
  have s1 : LReachable
      { paused := false, queued := 1, dpc := .idle, mpc := .sel,
        ipc := .sendLock, inWindow := false, dispatched := 0 } :=
    LReachable.step LReachable.init (LStep.produce _ rfl)
  have s2 : LReachable
      { paused := false, queued := 0, dpc := .checkPause, mpc := .sel,
        ipc := .sendLock, inWindow := false, dispatched := 0 } :=
    LReachable.step s1 (LStep.drain _ rfl rfl)
  have s3 : LReachable
      { paused := false, queued := 0, dpc := .dispatching, mpc := .sel,
        ipc := .sendLock, inWindow := false, dispatched := 0 } :=
    LReachable.step s2 (LStep.seeUnpaused _ rfl rfl)
  have s4 : LReachable
      { paused := false, queued := 0, dpc := .dispatching, mpc := .pausing,
        ipc := .awaitAck, inWindow := false, dispatched := 0 } :=
    LReachable.step s3 (LStep.lockRendezvous _ rfl rfl)
  have s5 : LReachable
      { paused := true, queued := 0, dpc := .dispatching, mpc := .acking,
        ipc := .awaitAck, inWindow := false, dispatched := 0 } :=
    LReachable.step s4 (LStep.setPaused _ rfl)
  have s6 : LReachable
      { paused := true, queued := 0, dpc := .dispatching, mpc := .inLock,
        ipc := .runningJob, inWindow := true, dispatched := 0 } :=
    LReachable.step s5 (LStep.ackRendezvous _ rfl rfl)
  exact LReachable.step s6 (LStep.dispatch _ rfl)

/-- Inductive invariant of the listener system: inside the window the
main loop sits at `inLock` with `paused` set, so the dispatcher cannot
pass a fresh pause check; consequently at most one dispatch — the one
that passed its check before the pause — can land in the window. -/
abbrev LInv (c : ListenerConfig) : Prop :=
  (c.inWindow = true → c.mpc = MainPC.inLock) ∧
  ((c.mpc = MainPC.acking ∨ c.mpc = MainPC.inLock) → c.paused = true) ∧
  (c.inWindow = true →
    c.dispatched + (if c.dpc = DispatcherPC.dispatching then 1 else 0) ≤ 1) ∧
  c.dispatched ≤ 1

/-- The invariant holds in every reachable configuration. -/
theorem linv_holds (c : ListenerConfig) (h : LReachable c) : LInv c := by
  induction h with
  | init => decide
  | @step c d h1 h2 ih =>
    obtain ⟨i1, i2, i3, i4⟩ := ih
    cases h2 with
    | produce h => exact ⟨i1, i2, i3, i4⟩
    | drain hd hq =>
      refine ⟨i1, i2, fun hw => ?_, i4⟩
      simpa using i4
    | seePaused hd hp =>
      refine ⟨i1, i2, fun hw => ?_, i4⟩
      simpa using i4
    | seeUnpaused hd hp =>
      refine ⟨i1, i2, fun hw => ?_, i4⟩
      have hpt := i2 (Or.inr (i1 hw))
      rw [hp] at hpt
      simp at hpt
    | pollDone hd hp =>
      refine ⟨i1, i2, fun hw => ?_, i4⟩
      have hpt := i2 (Or.inr (i1 hw))
      rw [hp] at hpt
      simp at hpt
    | jobDone hi => exact ⟨i1, i2, i3, i4⟩
    | dispatch hd =>
      refine ⟨i1, i2, fun hw => ?_, ?_⟩
      · have h3 := i3 hw
        simp [hd] at h3
        have hww : c.inWindow = true := hw
        simp [hww]
        omega
      · cases hww : c.inWindow with
        | true =>
          have h3 := i3 hww
          simp [hd] at h3
          simp [hww]
          omega
        | false => simpa [hww] using i4
    | lockRendezvous hm hi =>
      refine ⟨fun hw => ?_, fun hm2 => ?_, fun hw => ?_, i4⟩
      · have := i1 hw
        rw [hm] at this
        simp at this
      · rcases hm2 with h | h <;> simp at h
      · have := i1 hw
        rw [hm] at this
        simp at this
    | setPaused hm =>
      refine ⟨fun hw => ?_, fun _ => rfl, fun hw => ?_, i4⟩
      · have := i1 hw
        rw [hm] at this
        simp at this
      · have := i1 hw
        rw [hm] at this
        simp at this
    | ackRendezvous hm hi =>
      refine ⟨fun _ => rfl, fun _ => i2 (Or.inl hm), fun _ => ?_, by simp⟩
      by_cases hdp : c.dpc = DispatcherPC.dispatching <;> simp [hdp]
    | resumeRendezvous hm hi =>
      refine ⟨fun hw => ?_, fun hm2 => ?_, fun hw => ?_, i4⟩
      · simp at hw
      · rcases hm2 with h | h <;> simp at h
      · simp at hw
    | clearPaused hm =>
      refine ⟨fun hw => ?_, fun hm2 => ?_, fun hw => ?_, i4⟩
      · have := i1 hw
        rw [hm] at this
        simp at this
      · rcases hm2 with h | h <;> simp at h
      · have := i1 hw
        rw [hm] at this
        simp at this

/-- C3 amended: in every reachable configuration of the interleaving
system, at most one notification is handed to a worker inside the
ack→resume window (`dispatched` counts exactly those dispatches and is
reset when the window opens) — the one, if any, that had already passed
its pause check when `paused` was set; zero is not guaranteed, because
`handleNotifications` reads `paused` once before the worker hand-off. -/
theorem c3_amended (c : ListenerConfig) (h : LReachable c) :
    c.dispatched ≤ 1 :=
  (linv_holds c h).2.2.2

/-- Witness for C3 amended at the initial configuration. -/
theorem c3_amended_witness : initListener.dispatched ≤ 1 :=
  c3_amended initListener LReachable.init

end ContentExporter
